import Mathlib

/-!
Verification of the iTrash kiosk core against its natural-language
specification.  The definitions below are a shallow embedding of the
Python source:

* `src/api/state.py`            — `LocalState` (the StateStore)
* `src/core/hardware_loop.py`   — `HardwareLoop` (phase state machine)
* `src/core/ai_classifier.py`   — YOLO / GPT / hybrid classifiers
* `src/display/media_display.py`— `SimpleMediaDisplay.tick` (render loop)
* `src/config/settings.py`      — constants

Python dictionaries are modelled as association lists of `PyVal`,
Python string comparison as `String` equality, machine time as `ℚ`
timestamps attached to effect events, and exceptions as `Except Unit`.
-/

namespace ITrash

/-- A scalar Python value stored inside a nested dictionary
(`sensor_status`, `last_disposal`): string, boolean or `None`.  The
program never stores deeper nesting, so one level suffices. -/
inductive PyAtom where
  | aStr (s : String)
  | aBool (b : Bool)
  | aNone
deriving DecidableEq, Repr

/-- A Python value as stored in the `LocalState` dictionary: strings,
booleans, `None`, and (one level of) nested dictionaries. -/
inductive PyVal where
  | pyStr (s : String)
  | pyBool (b : Bool)
  | pyNone
  | pyDict (d : List (String × PyAtom))
deriving DecidableEq, Repr

open PyAtom
open PyVal

/-- Python `d[k]` lookup returning `none` when the key is absent. -/
def dictGet {α : Type} : List (String × α) → String → Option α
  | [], _ => none
  | (k, v) :: rest, key => if k = key then some v else dictGet rest key

/-- Python `d[k] = v`: replace the binding for `k` if present, else append. -/
def dictSet {α : Type} : List (String × α) → String → α → List (String × α)
  | [], key, value => [(key, value)]
  | (k, v) :: rest, key, value =>
      if k = key then (key, value) :: rest else (k, v) :: dictSet rest key value

/-- Python `value == "s"` where `value` is an arbitrary object:
true exactly when it is the string `s`. -/
def pvEqStr : PyVal → String → Bool
  | pyStr t, s => t = s
  | _, _ => false

/-- Python `value in list_of_strings`. -/
def pvInStrList (v : PyVal) : List String → Bool
  | [] => false
  | s :: rest => pvEqStr v s || pvInStrList v rest

/-- The store underlying `LocalState` (src/api/state.py): a dictionary. -/
abbrev Store := List (String × PyVal)

/-- The dictionary literal built by `LocalState.__init__` (state.py lines 17-34). -/
def initialState : Store :=
  [ ("phase", pyStr "idle"),
    ("last_classification", pyNone),
    ("last_classification_ts", pyNone),
    ("reward", pyBool false),
    ("system_status", pyStr "initializing"),
    ("last_disposal", pyDict
      [ ("user_thrown", aNone), ("timestamp", aNone), ("correct", aNone) ]),
    ("sensor_status", pyDict
      [ ("object_detected", aBool false), ("blue_bin", aBool false),
        ("yellow_bin", aBool false), ("brown_bin", aBool false) ]) ]

namespace LocalState

/-- Python `LocalState.update` (state.py lines 36-43): write the key, and when the
write is `phase = "idle"` also clear `last_classification` and
`last_classification_ts` inside the same critical section. -/
def update (st : Store) (key : String) (value : PyVal) : Store :=
  let st1 := dictSet st key value
  if key = "phase" && pvEqStr value "idle" then
    dictSet (dictSet st1 "last_classification" pyNone) "last_classification_ts" pyNone
  else
    st1

/-- Python `LocalState.get` (state.py lines 45-48): `self.state.get(key, default)`. -/
def get (st : Store) (key : String) (default : PyVal) : PyVal :=
  (dictGet st key).getD default

/-- Python `LocalState.update_sensor_status` (state.py lines 50-55).  The nested
item assignment `self.state["sensor_status"][sensor] = status` raises a
`TypeError` when the stored value is not a dictionary; that error case is
the `Except.error` branch. -/
def update_sensor_status (st : Store) (sensor : String) (status : Bool) :
    Except Unit Store :=
  let st1 :=
    if (dictGet st "sensor_status").isNone then
      dictSet st "sensor_status" (pyDict [])
    else st
  match dictGet st1 "sensor_status" with
  | some (pyDict d) =>
      Except.ok (dictSet st1 "sensor_status" (pyDict (dictSet d sensor (aBool status))))
  | _ => Except.error ()

/-- Python `LocalState.reset` (state.py lines 62-82). -/
def reset : Store :=
  [ ("phase", pyStr "idle"),
    ("last_classification", pyNone),
    ("last_classification_ts", pyNone),
    ("reward", pyBool false),
    ("system_status", pyStr "ready"),
    ("last_disposal", pyDict
      [ ("user_thrown", aNone), ("timestamp", aNone), ("correct", aNone) ]),
    ("sensor_status", pyDict
      [ ("object_detected", aBool false), ("blue_bin", aBool false),
        ("yellow_bin", aBool false), ("brown_bin", aBool false) ]) ]

end LocalState

/-- One mutation of the shared `LocalState` store through its public API. -/
inductive StoreStep : Store → Store → Prop
  | upd (st : Store) (k : String) (v : PyVal) :
      StoreStep st (LocalState.update st k v)
  | sens (st st1 : Store) (s : String) (b : Bool) :
      LocalState.update_sensor_status st s b = Except.ok st1 → StoreStep st st1
  | rst (st : Store) : StoreStep st LocalState.reset

/-- Stores reachable from the initial store through the `LocalState` API. -/
inductive ReachableStore : Store → Prop
  | init : ReachableStore initialState
  | step {st st1 : Store} : ReachableStore st → StoreStep st st1 → ReachableStore st1

/-! ### Configuration constants (src/config/settings.py) -/

namespace TimingConfig

def OBJECT_DETECTION_DELAY : ℚ := 1/2
def IDLE_TO_PROCESSING_DELAY : ℚ := 1/2
def PROCESSING_TO_RESULT_DELAY : ℚ := 3
def REWARD_DELAY : ℚ := 2
def REWARD_DISPLAY_TIME : ℚ := 5
def QRCODE_DISPLAY_TIME : ℚ := 5
def INCORRECT_DISPLAY_TIME : ℚ := 2

end TimingConfig

/-- Python `TrashClassification.VALID_COLORS` (settings.py). -/
def VALID_COLORS : List String := ["blue", "yellow", "brown"]

/-- Python `TrashClassification.TRASH_DICT` (settings.py). -/
def TRASH_DICT : List (String × String) :=
  [ ("BIODEGRADABLE", "brown"), ("CARDBOARD", "blue"), ("CLOTH", "blue"),
    ("GLASS", "blue"), ("METAL", "yellow"), ("PAPER", "blue"),
    ("PLASTIC", "yellow") ]

/-- Python `s in list_of_strings` for a string `s`. -/
def strMem (s : String) : List String → Bool
  | [] => false
  | t :: rest => s = t || strMem s rest

/-! ### Hardware loop embedding (src/core/hardware_loop.py)

State mutations go through `LocalState.update`; externally visible
actions (store writes, LED commands, sleeps, animations) are also logged
as a list of `Eff` events in program order, so that temporal claims can
be stated about the event trace.  Detached timer threads started by the
loop are returned as `AutoReset` values whose delayed bodies are given
by `runAutoReset`. -/

/-- A command sent to the LED strip. -/
inductive LedCmd where
  | clearAll
  | setAll (r g b : Nat)
deriving DecidableEq, Repr

/-- An externally visible action of the hardware loop, in program order. -/
inductive Eff where
  | updateKey (k : String) (v : PyVal)
  | sensorWrite (s : String) (b : Bool)
  | led (c : LedCmd)
  | sleepFor (q : ℚ)
  | successAnimation
  | errorAnimation
deriving DecidableEq, Repr

/-- A fire-once delayed reset thread started by `_handle_bin_detection`. -/
inductive AutoReset where
  | rewardReset
  | incorrectReset
deriving DecidableEq, Repr

/-- The `[.led .clearAll]` trace guarded by `if self.hardware:` in the source. -/
def ledClearIf (hw : Bool) : List Eff := if hw then [Eff.led LedCmd.clearAll] else []

namespace HardwareLoop

/-- Python `trash_phases` literal (hardware_loop.py line 134). -/
def trash_phases : List String := ["blue_trash", "yellow_trash", "brown_trash"]

/-- Python `phase_to_bin` literal (hardware_loop.py lines 138-142). -/
def phase_to_bin : List (String × String) :=
  [ ("blue_trash", "blue"), ("yellow_trash", "yellow"), ("brown_trash", "brown") ]

/-- Python `HardwareLoop._handle_bin_detection` (hardware_loop.py lines 128-200):
immediate part.  Reads the phase; inside a `result` (trash) phase a
matching bin goes to `reward` (flag set) and a non-matching bin to
`incorrect`, each scheduling a detached auto-reset thread; outside those
phases nothing happens.  `hw` is `self.hardware is not None`. -/
def handleBinDetection (hw : Bool) (st : Store) (binType : String) :
    Store × List Eff × List AutoReset :=
  let current_phase := LocalState.get st "phase" pyNone
  if pvInStrList current_phase trash_phases then
    let expected_bin : Option String :=
      match current_phase with
      | pyStr s => dictGet phase_to_bin s
      | _ => none
    if expected_bin = some binType then
      let st1 := LocalState.update st "reward" (pyBool true)
      let st2 := LocalState.update st1 "phase" (pyStr "reward")
      (st2,
       [Eff.updateKey "reward" (pyBool true), Eff.updateKey "phase" (pyStr "reward")]
         ++ (if hw then [Eff.successAnimation] else []),
       [AutoReset.rewardReset])
    else
      let st1 := LocalState.update st "phase" (pyStr "incorrect")
      (st1,
       [Eff.updateKey "phase" (pyStr "incorrect")]
         ++ (if hw then [Eff.errorAnimation] else []),
       [AutoReset.incorrectReset])
  else
    (st, [], [])

/-- The delayed bodies of the two `auto_reset` closures
(hardware_loop.py lines 156-173 and 184-200): sleep for the display
time, then write `idle` (which clears the classification), clear the
reward flag (and, in the reward case, explicitly re-clear
`last_classification`), and clear the LEDs. -/
def runAutoReset (hw : Bool) : AutoReset → Store → Store × List Eff
  | AutoReset.rewardReset, st =>
      let st1 := LocalState.update st "phase" (pyStr "idle")
      let st2 := LocalState.update st1 "reward" (pyBool false)
      let st3 := LocalState.update st2 "last_classification" pyNone
      (st3,
       [Eff.sleepFor TimingConfig.REWARD_DISPLAY_TIME,
        Eff.updateKey "phase" (pyStr "idle"),
        Eff.updateKey "reward" (pyBool false),
        Eff.updateKey "last_classification" pyNone] ++ ledClearIf hw)
  | AutoReset.incorrectReset, st =>
      let st1 := LocalState.update st "phase" (pyStr "idle")
      let st2 := LocalState.update st1 "reward" (pyBool false)
      (st2,
       [Eff.sleepFor TimingConfig.INCORRECT_DISPLAY_TIME,
        Eff.updateKey "phase" (pyStr "idle"),
        Eff.updateKey "reward" (pyBool false)] ++ ledClearIf hw)

/-- The result-application part of the `classify_async` worker body
(hardware_loop.py lines 227-254), executed when the classifier returns
`result`.  A valid result is applied unconditionally — the worker writes
`last_classification`, sleeps, sets the LEDs and writes the result
phase, WITHOUT re-checking that `phase` is still `"processing"`.  An
invalid or empty result writes `phase = "error"` and clears the LEDs. -/
def classifyAsyncApply (hw : Bool) (st : Store) (result : String) :
    Store × List Eff :=
  if !(result = "") && strMem result ["blue", "yellow", "brown"] then
    let st1 := LocalState.update st "last_classification" (pyStr result)
    let e1 := [Eff.updateKey "last_classification" (pyStr result),
               Eff.sleepFor TimingConfig.PROCESSING_TO_RESULT_DELAY]
    if hw then
      if result = "blue" then
        (LocalState.update st1 "phase" (pyStr "blue_trash"),
         e1 ++ [Eff.led (LedCmd.setAll 0 0 255),
                Eff.updateKey "phase" (pyStr "blue_trash")])
      else if result = "yellow" then
        (LocalState.update st1 "phase" (pyStr "yellow_trash"),
         e1 ++ [Eff.led (LedCmd.setAll 255 255 0),
                Eff.updateKey "phase" (pyStr "yellow_trash")])
      else if result = "brown" then
        (LocalState.update st1 "phase" (pyStr "brown_trash"),
         e1 ++ [Eff.led (LedCmd.setAll 139 69 19),
                Eff.updateKey "phase" (pyStr "brown_trash")])
      else (st1, e1)
    else (st1, e1)
  else
    (LocalState.update st "phase" (pyStr "error"),
     [Eff.updateKey "phase" (pyStr "error")] ++ ledClearIf hw)

/-- The timeout branch of `_process_trash_detection` (hardware_loop.py
lines 276-284): `classify_thread.join(timeout=30)` elapsed with the
worker still alive, so the monitor forces `phase = "error"` and clears
the LEDs.  The worker is NOT cancelled and keeps running. -/
def timeoutForceError (hw : Bool) (st : Store) : Store × List Eff :=
  (LocalState.update st "phase" (pyStr "error"),
   [Eff.updateKey "phase" (pyStr "error")] ++ ledClearIf hw)

/-- One bin-sensor block of `_check_bin_sensors` (hardware_loop.py
lines 105-126): record the flag, and on a positive reading also run
`_handle_bin_detection`. -/
def checkBin1 (hw : Bool) (st : Store) (name binType : String) (reading : Bool) :
    Except Unit (Store × List Eff × List AutoReset) :=
  if reading then do
    let st1 ← LocalState.update_sensor_status st name true
    let r := handleBinDetection hw st1 binType
    Except.ok (r.1, Eff.sensorWrite name true :: r.2.1, r.2.2)
  else do
    let st1 ← LocalState.update_sensor_status st name false
    Except.ok (st1, [Eff.sensorWrite name false], [])

/-- Python `HardwareLoop._check_bin_sensors` (hardware_loop.py lines 105-126):
the three bin blocks in source order (blue, yellow, brown). -/
def checkBinSensors (hw : Bool) (st : Store) (blueR yellowR brownR : Bool) :
    Except Unit (Store × List Eff × List AutoReset) := do
  let r1 ← checkBin1 hw st "blue_bin" "blue" blueR
  let r2 ← checkBin1 hw r1.1 "yellow_bin" "yellow" yellowR
  let r3 ← checkBin1 hw r2.1 "brown_bin" "brown" brownR
  Except.ok (r3.1, r1.2.1 ++ r2.2.1 ++ r3.2.1, r1.2.2 ++ r2.2.2 ++ r3.2.2)

/-- One iteration of `HardwareLoop._hardware_loop` (hardware_loop.py
lines 74-99).  `proc` is the continuation `_process_trash_detection`
(whose behaviour depends on camera/classifier and is analysed
separately); `objectNear` and the three `R` flags are the sensor
readings of this iteration. -/
def loopIteration (hw : Bool)
    (proc : Store → Store × List Eff × List AutoReset)
    (st : Store) (objectNear blueR yellowR brownR : Bool) :
    Except Unit (Store × List Eff × List AutoReset) := do
  let current_phase := LocalState.get st "phase" pyNone
  let r1 ←
    if pvEqStr current_phase "idle" && objectNear then do
      let sa := LocalState.update st "phase" (pyStr "processing")
      let sb ← LocalState.update_sensor_status sa "object_detected" true
      let p := proc sb
      Except.ok (p.1,
        [Eff.sleepFor TimingConfig.IDLE_TO_PROCESSING_DELAY,
         Eff.updateKey "phase" (pyStr "processing"),
         Eff.sensorWrite "object_detected" true,
         Eff.led (LedCmd.setAll 255 255 255)] ++ p.2.1, p.2.2)
    else
      Except.ok (st, ([] : List Eff), ([] : List AutoReset))
  let r2 ← checkBinSensors hw r1.1 blueR yellowR brownR
  Except.ok (r2.1, r1.2.1 ++ r2.2.1 ++ [Eff.sleepFor (1/10)], r1.2.2 ++ r2.2.2)

end HardwareLoop

/-- The sequence of values written to the `phase` key, extracted from an
event trace. -/
def phaseWrites : List Eff → List PyVal
  | [] => []
  | Eff.updateKey k v :: rest =>
      if k = "phase" then v :: phaseWrites rest else phaseWrites rest
  | _ :: rest => phaseWrites rest

/-! ### Classifier embedding (src/core/ai_classifier.py)

The external classification capabilities (Roboflow YOLO endpoint, the
GPT chat endpoint) are modelled by oracles describing the outcome of
each call, including the case in which the call raises.  Paths on which
Python would raise are `Except.error`; the source's `try/except`
handlers are the corresponding `match` arms. -/

/-- One YOLO prediction: `class` and `confidence` fields. -/
structure YoloPred where
  cls : String
  confidence : ℚ
deriving DecidableEq, Repr

/-- Outcome of one `client.infer` call: exception, or a prediction list. -/
inductive YoloOutcome where
  | exc
  | resp (preds : List YoloPred)
deriving DecidableEq, Repr

/-- Python `max(predictions, key=lambda x: x["confidence"])`: first
element with maximal confidence. -/
def maxByConf (best : YoloPred) : List YoloPred → YoloPred
  | [] => best
  | p :: rest => maxByConf (if p.confidence > best.confidence then p else best) rest

namespace YOLOClassifier

/-- Body of the `try` block of `YOLOClassifier.classify`
(ai_classifier.py lines 26-48): `Except.error` when `infer` raises. -/
def body : YoloOutcome → Except Unit String
  | YoloOutcome.exc => Except.error ()
  | YoloOutcome.resp [] => Except.ok ""
  | YoloOutcome.resp (p :: ps) =>
      Except.ok ((dictGet TRASH_DICT (maxByConf p ps).cls).getD "")

/-- Python `YOLOClassifier.classify` (ai_classifier.py lines 24-52), with its
`except` handler mapping any exception to `""`. -/
def classifyE (o : YoloOutcome) : Except Unit String :=
  match body o with
  | Except.ok s => Except.ok s
  | Except.error _ => Except.ok ""

/-- The value `YOLOClassifier.classify` returns (total, since every
exception is caught). -/
def classify (o : YoloOutcome) : String :=
  match o with
  | YoloOutcome.exc => ""
  | YoloOutcome.resp [] => ""
  | YoloOutcome.resp (p :: ps) => (dictGet TRASH_DICT (maxByConf p ps).cls).getD ""

end YOLOClassifier

/-- Outcome of one GPT attempt (encode + POST + parse), as seen by the
loop body of `GPTClassifier.classify`. -/
inductive GptOutcome where
  | exc
  | httpErr
  | badJson
  | parsed (trash_class : String)
deriving DecidableEq, Repr

/-- An observable event of the GPT retry loop: an attempt (the HTTP
call) or a backoff sleep between attempts.  The loop in the source
performs no sleep, so `backoffSleep` never occurs in its trace; the
claimed backoff pattern is stated with it. -/
inductive GptEv where
  | attemptCall
  | backoffSleep (q : ℚ)
deriving DecidableEq, Repr

/-- Did this attempt outcome fail (invalid label, empty/error response,
or exception)? -/
def isFailureOutcome : GptOutcome → Bool
  | GptOutcome.parsed c => !(strMem c VALID_COLORS)
  | _ => true

namespace GPTClassifier

/-- The per-attempt `try` body (ai_classifier.py lines 92-172):
`Except.error` when the attempt raises; otherwise either a validated
return value or a `continue`. -/
inductive AttemptRes where
  | retVal (c : String)
  | continueLoop
deriving DecidableEq, Repr

/-- Per-attempt outcome evaluation: non-200 responses and JSON decode
failures are handled inside the body and `continue`; a parsed label is
returned only when it is in `VALID_COLORS`. -/
def attemptBody : GptOutcome → Except Unit AttemptRes
  | GptOutcome.exc => Except.error ()
  | GptOutcome.httpErr => Except.ok AttemptRes.continueLoop
  | GptOutcome.badJson => Except.ok AttemptRes.continueLoop
  | GptOutcome.parsed c =>
      if strMem c VALID_COLORS then Except.ok (AttemptRes.retVal c)
      else Except.ok AttemptRes.continueLoop

/-- The `for attempt in range(max_retries)` loop of
`GPTClassifier.classify` (ai_classifier.py lines 91-182).  `i` is the
current attempt index, `fuel` the remaining iterations; the result is
the returned string together with the trace of loop events.  On an
exception at the last attempt the loop `break`s; exhausting the loop
falls through to `return ""`. -/
def classifyGo (oracle : Nat → GptOutcome) (max_retries : Nat) :
    Nat → Nat → String × List GptEv
  | _, 0 => ("", [])
  | i, fuel + 1 =>
      match oracle i with
      | GptOutcome.parsed c =>
          if strMem c VALID_COLORS then (c, [GptEv.attemptCall])
          else
            let p := classifyGo oracle max_retries (i + 1) fuel
            (p.1, GptEv.attemptCall :: p.2)
      | GptOutcome.badJson =>
          let p := classifyGo oracle max_retries (i + 1) fuel
          (p.1, GptEv.attemptCall :: p.2)
      | GptOutcome.httpErr =>
          let p := classifyGo oracle max_retries (i + 1) fuel
          (p.1, GptEv.attemptCall :: p.2)
      | GptOutcome.exc =>
          if i < max_retries - 1 then
            let p := classifyGo oracle max_retries (i + 1) fuel
            (p.1, GptEv.attemptCall :: p.2)
          else ("", [GptEv.attemptCall])

/-- Exception-level version of the loop: each attempt body may raise,
and the source's `except Exception` arm turns the error into
`continue`/`break`.  No other handler exists, so an uncaught raise
would surface as `Except.error`. -/
def classifyGoE (oracle : Nat → GptOutcome) (max_retries : Nat) :
    Nat → Nat → Except Unit (String × List GptEv)
  | _, 0 => Except.ok ("", [])
  | i, fuel + 1 =>
      match attemptBody (oracle i) with
      | Except.ok (AttemptRes.retVal c) => Except.ok (c, [GptEv.attemptCall])
      | Except.ok AttemptRes.continueLoop =>
          match classifyGoE oracle max_retries (i + 1) fuel with
          | Except.ok p => Except.ok (p.1, GptEv.attemptCall :: p.2)
          | Except.error e => Except.error e
      | Except.error _ =>
          if i < max_retries - 1 then
            match classifyGoE oracle max_retries (i + 1) fuel with
            | Except.ok p => Except.ok (p.1, GptEv.attemptCall :: p.2)
            | Except.error e => Except.error e
          else Except.ok ("", [GptEv.attemptCall])

/-- Python `GPTClassifier.classify(image)` with the default `max_retries=3`. -/
def classify (oracle : Nat → GptOutcome) : String × List GptEv :=
  classifyGo oracle 3 0 3

/-- Exception-level `GPTClassifier.classify(image)` with `max_retries=3`. -/
def classifyE (oracle : Nat → GptOutcome) : Except Unit (String × List GptEv) :=
  classifyGoE oracle 3 0 3

end GPTClassifier

/-- The asyncio environment of the thread running
`HybridClassifier.classify`.  The history-record timestamp expression
(ai_classifier.py lines 211, 230, 242, 254) calls
`asyncio.get_event_loop()`: in a non-main thread with no event loop set
— such as the `run_in_executor` worker thread of the deployed call path
— that call raises `RuntimeError`; otherwise it returns a loop with its
running flag and clock (`time.time()` is the fallback clock). -/
inductive LoopEnv where
  | noLoop
  | loop (running : Bool) (loopTime wallTime : ℚ)
deriving DecidableEq, Repr

/-- The timestamp expression of a classification-history record:
`asyncio.get_event_loop().time() if asyncio.get_event_loop().is_running()
else time.time()`.  It raises when the thread has no event loop. -/
def historyTimestampE : LoopEnv → Except Unit ℚ
  | LoopEnv.noLoop => Except.error ()
  | LoopEnv.loop running loopTime wallTime =>
      Except.ok (if running then loopTime else wallTime)

namespace HybridClassifier

/-- Value of `HybridClassifier.classify` (ai_classifier.py lines
198-261) on normal completion: YOLO first; on an empty or invalid YOLO
label fall back to GPT when `use_gpt_fallback`; fall through to `""`.
The classification-history side effects — whose timestamp acquisition
can raise — are carried by `classifyE`; this value-level function is
what `classifyE` returns whenever no exception occurs. -/
def classify (use_gpt_fallback : Bool) (y : YoloOutcome) (g : Nat → GptOutcome) :
    String :=
  let yolo_result := YOLOClassifier.classify y
  if !(yolo_result = "") && strMem yolo_result VALID_COLORS then
    yolo_result
  else if use_gpt_fallback then
    let gpt_result := (GPTClassifier.classify g).1
    if !(gpt_result = "") && strMem gpt_result VALID_COLORS then gpt_result
    else ""
  else ""

/-- Exception-level `HybridClassifier.classify` (ai_classifier.py lines
198-261).  The body has no `try/except` of its own, so an exception
from either sub-classifier or from a history-record timestamp
propagates out.  Every completion path builds at least one
classification-history record: the YOLO-success record (line 210), the
GPT-success record (line 229), the failed-GPT record (line 241)
followed by the hybrid-failure record (line 253), or the hybrid-failure
record alone; each record evaluates the timestamp expression of
`historyTimestampE` in the thread environment `env`. -/
def classifyE (env : LoopEnv) (use_gpt_fallback : Bool) (y : YoloOutcome)
    (g : Nat → GptOutcome) : Except Unit String := do
  let yolo_result ← YOLOClassifier.classifyE y
  if !(yolo_result = "") && strMem yolo_result VALID_COLORS then do
    let _ ← historyTimestampE env
    Except.ok yolo_result
  else if use_gpt_fallback then do
    let pr ← GPTClassifier.classifyE g
    let gpt_result := pr.1
    if !(gpt_result = "") && strMem gpt_result VALID_COLORS then do
      let _ ← historyTimestampE env
      Except.ok gpt_result
    else do
      let _ ← historyTimestampE env
      let _ ← historyTimestampE env
      Except.ok ""
  else do
    let _ ← historyTimestampE env
    Except.ok ""

end HybridClassifier

/-- Claim C6 as stated: no exception ever propagates out of the
classification operation to its caller — for every thread environment
and every behaviour of the external classifiers, the hybrid
classification completes normally. -/
def claimC6Statement : Prop :=
  ∀ (env : LoopEnv) (ufb : Bool) (y : YoloOutcome) (g : Nat → GptOutcome),
    ∃ r, HybridClassifier.classifyE env ufb y g = Except.ok r

namespace ClassificationManager

/-- Python `ClassificationManager.process_image_with_feedback`
(ai_classifier.py lines 287-320): white LEDs, classify (through
`classify_async`, which calls `HybridClassifier.classify` with the
default `use_gpt_fallback=True`), then green/red feedback and a clear.
`led` is `self.led_strip is not None`. -/
def processImageWithFeedback (led : Bool) (y : YoloOutcome) (g : Nat → GptOutcome) :
    String × List LedCmd :=
  let result := HybridClassifier.classify true y g
  let pre := if led then [LedCmd.setAll 255 255 255] else []
  let post :=
    if led then
      (if !(result = "") then [LedCmd.setAll 0 255 0] else [LedCmd.setAll 255 0 0])
        ++ [LedCmd.clearAll]
    else []
  (result, pre ++ post)

end ClassificationManager

/-! ### Render loop embedding (src/display/media_display.py)

`SimpleMediaDisplay.tick` is single-threaded; it reads the shared
store, updates its own rendering state and issues LED commands only on
an observed state change.  Pixel operations are abstracted to their
effect on the rendering state; outcomes decided by the platform (video
open/read success, blit success, recovery success, frame-rate gating)
are supplied by a `RenderOracle`. -/

namespace SystemStates

def IDLE : Nat := 0
def PROCESSING : Nat := 1
def SHOW_TRASH : Nat := 2
def USER_CONFIRMATION : Nat := 3
def SUCCESS : Nat := 4
def QR_CODES : Nat := 5
def REWARD : Nat := 6
def INCORRECT : Nat := 7
def TIMEOUT : Nat := 8
def THROW_YELLOW : Nat := 9
def THROW_BLUE : Nat := 10
def THROW_BROWN : Nat := 11

end SystemStates

/-- Python `phase_to_state` dictionary of `tick` (media_display.py lines
212-227), applied with default `SystemStates.IDLE` (line 228). -/
def phaseToState (phase : PyVal) : Nat :=
  if pvEqStr phase "idle" then SystemStates.IDLE
  else if pvEqStr phase "processing" then SystemStates.PROCESSING
  else if pvEqStr phase "show_trash" then SystemStates.SHOW_TRASH
  else if pvEqStr phase "user_confirmation" then SystemStates.USER_CONFIRMATION
  else if pvEqStr phase "blue_trash" then SystemStates.THROW_BLUE
  else if pvEqStr phase "yellow_trash" then SystemStates.THROW_YELLOW
  else if pvEqStr phase "brown_trash" then SystemStates.THROW_BROWN
  else if pvEqStr phase "success" then SystemStates.SUCCESS
  else if pvEqStr phase "reward" then SystemStates.REWARD
  else if pvEqStr phase "qrcode" then SystemStates.QR_CODES
  else if pvEqStr phase "incorrect" then SystemStates.INCORRECT
  else if pvEqStr phase "timeout" then SystemStates.TIMEOUT
  else if pvEqStr phase "error" then SystemStates.USER_CONFIRMATION
  else if pvEqStr phase "qr_codes" then SystemStates.QR_CODES
  else SystemStates.IDLE

/-- Python `state_colors` of `_update_led_color_for_state` (media_display.py
lines 414-450), applied with default `(0,0,0)` (line 452). -/
def stateColor (s : Nat) : Nat × Nat × Nat :=
  if s = SystemStates.IDLE then (0, 0, 0)
  else if s = SystemStates.PROCESSING then (255, 255, 255)
  else if s = SystemStates.SHOW_TRASH then (255, 255, 255)
  else if s = SystemStates.USER_CONFIRMATION then (255, 0, 0)
  else if s = SystemStates.SUCCESS then (0, 255, 0)
  else if s = SystemStates.QR_CODES then (0, 255, 0)
  else if s = SystemStates.REWARD then (0, 255, 0)
  else if s = SystemStates.INCORRECT then (255, 0, 0)
  else if s = SystemStates.TIMEOUT then (255, 0, 0)
  else if s = SystemStates.THROW_YELLOW then (255, 255, 0)
  else if s = SystemStates.THROW_BLUE then (0, 0, 255)
  else if s = SystemStates.THROW_BROWN then (139, 69, 19)
  else (0, 0, 0)

/-- LED command sequence issued by `_update_led_color_for_state`
(media_display.py lines 452-462) when the hardware loop and its LED
strip are available: two clears for the off colour, otherwise a clear
followed by the target colour.  Without hardware the handler silently
does nothing. -/
def ledCmdsForState (hw : Bool) (s : Nat) : List LedCmd :=
  if hw then
    match stateColor s with
    | (0, 0, 0) => [LedCmd.clearAll, LedCmd.clearAll]
    | (r, g, b) => [LedCmd.clearAll, LedCmd.setAll r g b]
  else []

/-- Render mode of `SimpleMediaDisplay` (`self.current_mode`). -/
inductive RenderMode where
  | image
  | video
deriving DecidableEq, Repr

/-- The mutable rendering state of `SimpleMediaDisplay` relevant to
`tick`: `acc`, `current_mode`, `_needs_clear`, whether `video_cap` is
open, the run/init flags, whether an idle video path resolved, and
whether hardware (the LED strip) is reachable. -/
structure DState where
  acc : Nat
  mode : RenderMode
  needsClear : Bool
  videoOpen : Bool
  isRunning : Bool
  displayInit : Bool
  hasVideoPath : Bool
  hw : Bool
deriving DecidableEq, Repr

/-- Platform-decided outcomes consumed by one `tick` call. -/
structure RenderOracle where
  /-- Python `_open_video` succeeded (`cv2.VideoCapture` opened). -/
  openOk : Bool
  /-- Python `now - self._last_video_ts < self.video_delay`: skip this frame. -/
  skipByTime : Bool
  /-- Python `self.video_cap.read()` returned a frame. -/
  frameOk : Bool
  /-- seeking back to frame 0 at end-of-stream did not raise. -/
  seekOk : Bool
  /-- reopening the video after a failed seek succeeded. -/
  reopenOk : Bool
  /-- the scale/blit/flip block did not raise. -/
  blitOk : Bool
  /-- Python `display_initialized` after a `_recover_display` attempt
  (recovery may be rate-limited, succeed, or fail). -/
  postRecoverInit : Bool
  /-- a pre-scaled surface is preloaded for the current state. -/
  surfOk : Bool
deriving DecidableEq, Repr

/-- The per-frame render part of `tick` (media_display.py lines
249-302).  It draws pixels and maintains `_needs_clear`, the video
handle and (through `_recover_display`) `display_initialized`; it never
touches `acc`, `current_mode` or the LEDs. -/
def renderStep (d : DState) (ro : RenderOracle) : DState :=
  if d.mode = RenderMode.video && d.videoOpen then
    if ro.skipByTime then d
    else if !ro.frameOk then
      if ro.seekOk then d
      else { d with videoOpen := ro.reopenOk }
    else if ro.blitOk then { d with needsClear := false }
    else { d with displayInit := ro.postRecoverInit }
  else
    if ro.surfOk then
      if ro.blitOk then { d with needsClear := false }
      else { d with displayInit := ro.postRecoverInit }
    else d

namespace SimpleMediaDisplay

/-- Python `SimpleMediaDisplay.tick` (media_display.py lines 205-305): read the
phase from the shared store; on a changed desired state update `acc`,
issue the LED commands for the new state once and switch the render
mode; on an unchanged state do neither; then render one frame.  Returns
the new rendering state and the LED commands issued by this call. -/
def tick (d : DState) (st : Store) (ro : RenderOracle) : DState × List LedCmd :=
  if !(d.isRunning && d.displayInit) then (d, [])
  else
    let current_phase := LocalState.get st "phase" (pyStr "idle")
    let desired := phaseToState current_phase
    let r : DState × List LedCmd :=
      if desired ≠ d.acc then
        let d1 := { d with acc := desired }
        let led := ledCmdsForState d1.hw desired
        if desired = SystemStates.IDLE && d1.hasVideoPath then
          if d1.mode ≠ RenderMode.video then
            ({ d1 with videoOpen := d1.videoOpen || ro.openOk,
                       mode := RenderMode.video, needsClear := true }, led)
          else (d1, led)
        else
          ({ d1 with mode := RenderMode.image, needsClear := true,
                     videoOpen :=
                       if d1.mode = RenderMode.video then false else d1.videoOpen },
           led)
      else (d, [])
    (renderStep r.1 ro, r.2)

end SimpleMediaDisplay

/-! ### Auxiliary predicates and example stores -/

/-- The `sensor_status` entry is absent or a dictionary (the shapes on
which `update_sensor_status` cannot raise). -/
def sensorOk (st : Store) : Bool :=
  match dictGet st "sensor_status" with
  | some (pyDict _) => true
  | none => true
  | some _ => false

/-- The recorded flag for one named sensor, read through the nested
`sensor_status` dictionary. -/
def sensorFlag (st : Store) (s : String) : Option PyAtom :=
  match dictGet st "sensor_status" with
  | some (pyDict d) => dictGet d s
  | _ => none

namespace HardwareLoop

/-- Run a list of scheduled auto-reset threads in order (their delayed
bodies, after their sleeps). -/
def runAutoResets (hw : Bool) : List AutoReset → Store → Store × List Eff
  | [], st => (st, [])
  | a :: rest, st =>
      let p := runAutoReset hw a st
      let q := runAutoResets hw rest p.1
      (q.1, p.2 ++ q.2)

/-- A full bin-detection cycle: the immediate `_handle_bin_detection`
part followed by the auto-reset threads it scheduled. -/
def binCycle (hw : Bool) (st : Store) (binType : String) : Store × List Eff :=
  let r := handleBinDetection hw st binType
  let q := runAutoResets hw r.2.2 r.1
  (q.1, r.2.1 ++ q.2)

end HardwareLoop

/-- Claim C2 as stated: after a matching bin fires in a result phase,
the phase writes of the cycle are `reward`, then (after the reward
display duration) `qrcode`, then (after the qrcode display duration)
`idle`. -/
def claimC2Statement : Prop :=
  ∀ (hw : Bool) (st : Store) (s bin : String),
    LocalState.get st "phase" pyNone = pyStr s →
    s ∈ HardwareLoop.trash_phases →
    dictGet HardwareLoop.phase_to_bin s = some bin →
    phaseWrites (HardwareLoop.binCycle hw st bin).2 =
      [pyStr "reward", pyStr "qrcode", pyStr "idle"]

/-- Claim C3 as stated: in every store reachable through the
`LocalState` API, `phase = "idle"` implies both classification fields
are `None`. -/
def claimC3Statement : Prop :=
  ∀ st : Store, ReachableStore st →
    LocalState.get st "phase" pyNone = pyStr "idle" →
    LocalState.get st "last_classification" pyNone = pyNone ∧
    LocalState.get st "last_classification_ts" pyNone = pyNone

/-- Claim C5 as stated: on an all-failing oracle the GPT loop makes
exactly 3 attempts with a 0.5 s backoff between consecutive attempts
and returns empty. -/
def claimC5Statement : Prop :=
  ∀ oracle : Nat → GptOutcome,
    (∀ i, isFailureOutcome (oracle i) = true) →
    GPTClassifier.classify oracle =
      ("", [GptEv.attemptCall, GptEv.backoffSleep (1/2),
            GptEv.attemptCall, GptEv.backoffSleep (1/2),
            GptEv.attemptCall])

/-- A store whose phase is the result phase for category blue. -/
def blueTrashStore : Store := LocalState.update initialState "phase" (pyStr "blue_trash")

/-- The store as it stands while the classification worker runs. -/
def processingStore : Store := LocalState.update initialState "phase" (pyStr "processing")

/-- The store right after the 30 s `join` timeout forced `phase = "error"`. -/
def timedOutStore : Store := (HardwareLoop.timeoutForceError true processingStore).1

/-- The store after `update("last_classification", "blue")` is issued
against the initial (idle) store — the unguarded write the
`classify_async` worker performs. -/
def lateWriteStore : Store :=
  LocalState.update initialState "last_classification" (pyStr "blue")

/-! ## Theorems -/

/-! ### Dictionary and store lemmas -/

theorem dictGet_dictSet_self {α : Type} (d : List (String × α)) (k : String) (v : α) :
    dictGet (dictSet d k v) k = some v := by
  induction d with
  | nil => simp [dictGet, dictSet]
  | cons hd tl ih =>
      obtain ⟨k0, v0⟩ := hd
      by_cases h : k0 = k
      · simp [dictGet, dictSet, h]
      · simp [dictGet, dictSet, h, ih]

theorem dictGet_dictSet_ne {α : Type} (d : List (String × α)) (k kx : String) (v : α)
    (h : kx ≠ k) : dictGet (dictSet d k v) kx = dictGet d kx := by
  induction d with
  | nil => simp [dictGet, dictSet, Ne.symm h]
  | cons hd tl ih =>
      obtain ⟨k0, v0⟩ := hd
      by_cases h0 : k0 = k
      · subst h0
        simp [dictGet, dictSet, Ne.symm h]
      · by_cases h1 : k0 = kx
        · simp [dictGet, dictSet, h0, h1, h]
        · simp [dictGet, dictSet, h0, h1, ih]

theorem dictGet_update_ne (st : Store) (k : String) (v : PyVal) (kx : String)
    (h1 : kx ≠ k) (h2 : kx ≠ "last_classification")
    (h3 : kx ≠ "last_classification_ts") :
    dictGet (LocalState.update st k v) kx = dictGet st kx := by
  unfold LocalState.update
  split
  · rw [dictGet_dictSet_ne _ _ _ _ h3, dictGet_dictSet_ne _ _ _ _ h2,
        dictGet_dictSet_ne _ _ _ _ h1]
  · exact dictGet_dictSet_ne _ _ _ _ h1

/-- Python `update` with a write other than `phase = "idle"` is a plain
dictionary write. -/
theorem update_eq_dictSet (st : Store) (k : String) (v : PyVal)
    (h : (decide (k = "phase") && pvEqStr v "idle") = false) :
    LocalState.update st k v = dictSet st k v := by
  unfold LocalState.update
  split
  · next hc => rw [h] at hc; exact absurd hc (by simp)
  · rfl

/-- The three entries affected by an `update("phase", "idle")` call. -/
theorem idle_update_gets (st : Store) :
    dictGet (LocalState.update st "phase" (pyStr "idle")) "phase" = some (pyStr "idle") ∧
    dictGet (LocalState.update st "phase" (pyStr "idle")) "last_classification" = some pyNone ∧
    dictGet (LocalState.update st "phase" (pyStr "idle")) "last_classification_ts" = some pyNone := by
  have hupd : LocalState.update st "phase" (pyStr "idle") =
      dictSet (dictSet (dictSet st "phase" (pyStr "idle")) "last_classification" pyNone)
        "last_classification_ts" pyNone := rfl
  refine ⟨?_, ?_, ?_⟩ <;> rw [hupd]
  · rw [dictGet_dictSet_ne _ _ _ _ (by decide), dictGet_dictSet_ne _ _ _ _ (by decide),
        dictGet_dictSet_self]
  · rw [dictGet_dictSet_ne _ _ _ _ (by decide), dictGet_dictSet_self]
  · rw [dictGet_dictSet_self]

/-! ### Claim C10 -/

/-- C10: `LocalState.update(key, value)` modifies only the entry for the
given key — for every key other than `phase`, and for `phase` writes of
a value other than `"idle"`, every other entry of the store is left
unchanged. -/
theorem C10_update_frame (st : Store) (k : String) (v : PyVal) (kx : String)
    (hkv : k ≠ "phase" ∨ pvEqStr v "idle" = false) (hx : kx ≠ k) :
    dictGet (LocalState.update st k v) kx = dictGet st kx := by
  have hc : (decide (k = "phase") && pvEqStr v "idle") = false := by
    rcases hkv with h | h
    · simp [h]
    · simp [h]
  rw [update_eq_dictSet st k v hc]
  exact dictGet_dictSet_ne _ _ _ _ hx

/-- Witness for C10 at a concrete input: `update("reward", True)` leaves
`last_classification` untouched. -/
theorem C10_update_frame_witness :
    dictGet (LocalState.update initialState "reward" (pyBool true)) "last_classification" =
      dictGet initialState "last_classification" :=
  C10_update_frame initialState "reward" (pyBool true) "last_classification"
    (Or.inl (by decide)) (by decide)

/-! ### Claim C3 -/

/-- C3 counterexample: the invariant "`phase = idle` implies both
classification fields are `None`" does not hold in every reachable
store — one `update("last_classification", "blue")` against the initial
idle store (the unguarded write `classify_async` performs) breaks it. -/
theorem C3_reachable_counterexample : ¬ claimC3Statement := by
  intro h
  have hr : ReachableStore lateWriteStore :=
    ReachableStore.step ReachableStore.init
      (StoreStep.upd initialState "last_classification" (pyStr "blue"))
  have hidle : LocalState.get lateWriteStore "phase" pyNone = pyStr "idle" := by decide
  have := h lateWriteStore hr hidle
  exact absurd this.1 (by decide)

/-- C3 amended: every `update("phase", "idle")` call clears
`last_classification` and `last_classification_ts` in the same critical
section as the phase write, regardless of their prior values, so
immediately after any such call the invariant holds. -/
theorem C3_idle_write_clears (st : Store) :
    LocalState.get (LocalState.update st "phase" (pyStr "idle")) "phase" pyNone = pyStr "idle" ∧
    LocalState.get (LocalState.update st "phase" (pyStr "idle")) "last_classification" pyNone = pyNone ∧
    LocalState.get (LocalState.update st "phase" (pyStr "idle")) "last_classification_ts" pyNone = pyNone := by
  have hupd : LocalState.update st "phase" (pyStr "idle") =
      dictSet (dictSet (dictSet st "phase" (pyStr "idle")) "last_classification" pyNone)
        "last_classification_ts" pyNone := rfl
  refine ⟨?_, ?_, ?_⟩ <;>
    rw [hupd] <;>
    simp [LocalState.get, dictGet_dictSet_self, dictGet_dictSet_ne]

/-! ### Claim C1 -/

/-- C1 evaluation at the failing schedule: with the store in
`processing`, the 30 s `join` timeout forces `phase = "error"`; the
still-running worker then returns `"blue"`, and `classify_async`
applies it with no phase re-check — overwriting `last_classification`,
re-lighting the LEDs and moving `phase` to `"blue_trash"`. -/
theorem C1_late_result_overrides_timeout :
    LocalState.get timedOutStore "phase" pyNone = pyStr "error" ∧
    LocalState.get (HardwareLoop.classifyAsyncApply true timedOutStore "blue").1
      "phase" pyNone = pyStr "blue_trash" ∧
    LocalState.get (HardwareLoop.classifyAsyncApply true timedOutStore "blue").1
      "last_classification" pyNone = pyStr "blue" ∧
    Eff.led (LedCmd.setAll 0 0 255) ∈
      (HardwareLoop.classifyAsyncApply true timedOutStore "blue").2 := by
  decide

/-! ### Claim C2 -/

/-- C2 counterexample: in the matching-bin cycle the code never writes a
`qrcode` phase — the reward auto-reset goes straight to `idle`. -/
theorem C2_qrcode_counterexample : ¬ claimC2Statement := by
  intro h
  have := h true blueTrashStore "blue_trash" "blue" (by decide) (by decide) (by decide)
  exact absurd this (by decide)

/-- C2 amended: when the matching bin fires in a result phase, the phase
becomes `reward` and, after the reward display duration, directly
`idle` with both classification fields cleared; no `qrcode` phase
occurs between them. -/
theorem C2_reward_then_idle (hw : Bool) (st : Store) (s bin : String)
    (hphase : LocalState.get st "phase" pyNone = pyStr s)
    (hmem : s ∈ HardwareLoop.trash_phases)
    (hbin : dictGet HardwareLoop.phase_to_bin s = some bin) :
    (HardwareLoop.binCycle hw st bin).2 =
      [Eff.updateKey "reward" (pyBool true), Eff.updateKey "phase" (pyStr "reward")]
        ++ (if hw then [Eff.successAnimation] else [])
        ++ [Eff.sleepFor TimingConfig.REWARD_DISPLAY_TIME,
            Eff.updateKey "phase" (pyStr "idle"),
            Eff.updateKey "reward" (pyBool false),
            Eff.updateKey "last_classification" pyNone]
        ++ ledClearIf hw ∧
    phaseWrites (HardwareLoop.binCycle hw st bin).2 = [pyStr "reward", pyStr "idle"] ∧
    LocalState.get (HardwareLoop.binCycle hw st bin).1 "phase" pyNone = pyStr "idle" ∧
    LocalState.get (HardwareLoop.binCycle hw st bin).1 "last_classification" pyNone = pyNone ∧
    LocalState.get (HardwareLoop.binCycle hw st bin).1 "last_classification_ts" pyNone = pyNone := by
  simp only [HardwareLoop.trash_phases, List.mem_cons, List.not_mem_nil, or_false] at hmem
  have hcore : ∀ t : String,
      LocalState.get st "phase" pyNone = pyStr t →
      dictGet HardwareLoop.phase_to_bin t = some bin →
      pvInStrList (pyStr t) HardwareLoop.trash_phases = true →
      (HardwareLoop.binCycle hw st bin).2 =
        [Eff.updateKey "reward" (pyBool true), Eff.updateKey "phase" (pyStr "reward")]
          ++ (if hw then [Eff.successAnimation] else [])
          ++ [Eff.sleepFor TimingConfig.REWARD_DISPLAY_TIME,
              Eff.updateKey "phase" (pyStr "idle"),
              Eff.updateKey "reward" (pyBool false),
              Eff.updateKey "last_classification" pyNone]
          ++ ledClearIf hw ∧
      (HardwareLoop.binCycle hw st bin).1 =
        LocalState.update (LocalState.update (LocalState.update
          (LocalState.update (LocalState.update st "reward" (pyBool true))
            "phase" (pyStr "reward")) "phase" (pyStr "idle"))
          "reward" (pyBool false)) "last_classification" pyNone := by
    intro t hph hpb htrash
    have hH : HardwareLoop.handleBinDetection hw st bin =
        (LocalState.update (LocalState.update st "reward" (pyBool true))
           "phase" (pyStr "reward"),
         [Eff.updateKey "reward" (pyBool true), Eff.updateKey "phase" (pyStr "reward")]
           ++ (if hw then [Eff.successAnimation] else []),
         [AutoReset.rewardReset]) := by
      unfold HardwareLoop.handleBinDetection
      rw [hph]
      simp [htrash, hpb]
    constructor
    · unfold HardwareLoop.binCycle
      rw [hH]
      simp [HardwareLoop.runAutoResets, HardwareLoop.runAutoReset]
    · unfold HardwareLoop.binCycle
      rw [hH]
      simp [HardwareLoop.runAutoResets, HardwareLoop.runAutoReset]
  rcases hmem with rfl | rfl | rfl
  all_goals {
    first
    | (have hbv : bin = "blue" := by
         simpa [HardwareLoop.phase_to_bin, dictGet] using hbin.symm)
    | (have hbv : bin = "yellow" := by
         simpa [HardwareLoop.phase_to_bin, dictGet] using hbin.symm)
    | (have hbv : bin = "brown" := by
         simpa [HardwareLoop.phase_to_bin, dictGet] using hbin.symm)
    obtain ⟨h1, h2⟩ := hcore _ hphase hbin (by decide)
    refine ⟨h1, ?_, ?_, ?_, ?_⟩
    · rw [h1]; cases hw <;> decide
    · rw [h2, LocalState.get,
          update_eq_dictSet _ "last_classification" pyNone (by decide),
          dictGet_dictSet_ne _ _ _ _ (by decide),
          update_eq_dictSet _ "reward" (pyBool false) (by decide),
          dictGet_dictSet_ne _ _ _ _ (by decide),
          (idle_update_gets _).1]
      rfl
    · rw [h2, LocalState.get,
          update_eq_dictSet _ "last_classification" pyNone (by decide),
          dictGet_dictSet_self]
      rfl
    · rw [h2, LocalState.get,
          update_eq_dictSet _ "last_classification" pyNone (by decide),
          dictGet_dictSet_ne _ _ _ _ (by decide),
          update_eq_dictSet _ "reward" (pyBool false) (by decide),
          dictGet_dictSet_ne _ _ _ _ (by decide),
          (idle_update_gets _).2.2]
      rfl
  }

/-- Witness for C2 amended at a concrete input: a blue-bin trigger in
`blue_trash` yields the `reward`-then-`idle` phase write sequence with
the classification cleared at the end. -/
theorem C2_reward_then_idle_witness :
    phaseWrites (HardwareLoop.binCycle true blueTrashStore "blue").2 =
      [pyStr "reward", pyStr "idle"] ∧
    LocalState.get (HardwareLoop.binCycle true blueTrashStore "blue").1
      "last_classification" pyNone = pyNone :=
  ⟨(C2_reward_then_idle true blueTrashStore "blue_trash" "blue"
      (by decide) (by decide) (by decide)).2.1,
   (C2_reward_then_idle true blueTrashStore "blue_trash" "blue"
      (by decide) (by decide) (by decide)).2.2.2.1⟩

/-! ### Classifier lemmas -/

theorem strMem_iff (s : String) (l : List String) : strMem s l = true ↔ s ∈ l := by
  induction l with
  | nil => simp [strMem]
  | cons t rest ih => simp [strMem, ih, List.mem_cons]

theorem mem_result_set (r : String)
    (h : r = "" ∨ strMem r VALID_COLORS = true) :
    r ∈ (["blue", "yellow", "brown", ""] : List String) := by
  rcases h with h | h
  · simp [h]
  · have hm := (strMem_iff r VALID_COLORS).mp h
    simp only [VALID_COLORS, List.mem_cons, List.not_mem_nil, or_false] at hm
    rcases hm with h | h | h <;> simp [h]

theorem hybrid_result_cases (ufb : Bool) (y : YoloOutcome) (g : Nat → GptOutcome) :
    HybridClassifier.classify ufb y g = "" ∨
    strMem (HybridClassifier.classify ufb y g) VALID_COLORS = true := by
  unfold HybridClassifier.classify
  by_cases h1 :
      (!(YOLOClassifier.classify y = "") &&
        strMem (YOLOClassifier.classify y) VALID_COLORS) = true
  · simp only [h1, if_true]
    right
    simp only [Bool.and_eq_true] at h1
    exact h1.2
  · simp only [h1]
    cases ufb with
    | false => simp
    | true =>
        by_cases h2 :
            (!((GPTClassifier.classify g).1 = "") &&
              strMem (GPTClassifier.classify g).1 VALID_COLORS) = true
        · simp only [h2, if_true, if_false, Bool.false_eq_true, ite_true, ite_false]
          right
          simp only [Bool.and_eq_true] at h2
          exact h2.2
        · simp [h2]

/-! ### Claim C4 -/

/-- C4: for every behaviour of the external classifiers (arbitrary
labels, empty responses, exceptions), the classification pipeline
returns one of the three categories or the empty result; never any
other value. -/
theorem C4_result_in_category_set (led : Bool) (y : YoloOutcome) (g : Nat → GptOutcome) :
    (ClassificationManager.processImageWithFeedback led y g).1 ∈
      (["blue", "yellow", "brown", ""] : List String) := by
  have hr : (ClassificationManager.processImageWithFeedback led y g).1 =
      HybridClassifier.classify true y g := rfl
  rw [hr]
  exact mem_result_set _ (hybrid_result_cases true y g)

/-! ### Claim C5 -/

theorem classifyGo_fail_step (oracle : Nat → GptOutcome) (i fuel : Nat)
    (h : isFailureOutcome (oracle i) = true) (hi : i < 2) :
    GPTClassifier.classifyGo oracle 3 i (fuel + 1) =
      ((GPTClassifier.classifyGo oracle 3 (i + 1) fuel).1,
       GptEv.attemptCall :: (GPTClassifier.classifyGo oracle 3 (i + 1) fuel).2) := by
  cases ho : oracle i with
  | parsed c =>
      have hc : strMem c VALID_COLORS = false := by
        rw [ho] at h
        simpa [isFailureOutcome] using h
      simp [GPTClassifier.classifyGo, ho, hc]
  | badJson => simp [GPTClassifier.classifyGo, ho]
  | httpErr => simp [GPTClassifier.classifyGo, ho]
  | exc =>
      have hlt : i < 3 - 1 := by omega
      simp [GPTClassifier.classifyGo, ho, hlt]

theorem classifyGo_fail_last (oracle : Nat → GptOutcome)
    (h : isFailureOutcome (oracle 2) = true) :
    GPTClassifier.classifyGo oracle 3 2 1 = ("", [GptEv.attemptCall]) := by
  cases ho : oracle 2 with
  | parsed c =>
      have hc : strMem c VALID_COLORS = false := by
        rw [ho] at h
        simpa [isFailureOutcome] using h
      simp [GPTClassifier.classifyGo, ho, hc]
  | badJson => simp [GPTClassifier.classifyGo, ho]
  | httpErr => simp [GPTClassifier.classifyGo, ho]
  | exc => simp [GPTClassifier.classifyGo, ho]

/-- C5 counterexample: with an oracle that always yields an invalid
label, the GPT loop trace has no backoff sleep between attempts. -/
theorem C5_backoff_counterexample : ¬ claimC5Statement := by
  intro h
  have hfail : ∀ i : Nat,
      isFailureOutcome ((fun _ : Nat => GptOutcome.parsed "purple") i) = true :=
    fun _ => rfl
  have := h (fun _ : Nat => GptOutcome.parsed "purple") hfail
  exact absurd this (by decide)

/-- C5 amended: when every attempt outcome is a failure (invalid label,
empty/error response, or exception), the loop makes exactly 3 attempts
back-to-back — with no backoff sleep between them — and returns the
empty result. -/
theorem C5_three_attempts_no_backoff (oracle : Nat → GptOutcome)
    (h : ∀ i, isFailureOutcome (oracle i) = true) :
    GPTClassifier.classify oracle =
      ("", [GptEv.attemptCall, GptEv.attemptCall, GptEv.attemptCall]) := by
  have e0 : GPTClassifier.classifyGo oracle 3 0 3 =
      ((GPTClassifier.classifyGo oracle 3 1 2).1,
       GptEv.attemptCall :: (GPTClassifier.classifyGo oracle 3 1 2).2) :=
    classifyGo_fail_step oracle 0 2 (h 0) (by omega)
  have e1 : GPTClassifier.classifyGo oracle 3 1 2 =
      ((GPTClassifier.classifyGo oracle 3 2 1).1,
       GptEv.attemptCall :: (GPTClassifier.classifyGo oracle 3 2 1).2) :=
    classifyGo_fail_step oracle 1 1 (h 1) (by omega)
  have e2 := classifyGo_fail_last oracle (h 2)
  unfold GPTClassifier.classify
  rw [e0, e1, e2]

/-- Witness for C5 amended: the always-invalid stub oracle yields empty
after three back-to-back attempts. -/
theorem C5_three_attempts_no_backoff_witness :
    GPTClassifier.classify (fun _ => GptOutcome.parsed "purple") =
      ("", [GptEv.attemptCall, GptEv.attemptCall, GptEv.attemptCall]) :=
  C5_three_attempts_no_backoff (fun _ => GptOutcome.parsed "purple")
    (fun _ => rfl)

/-! ### Claim C6 -/

theorem yolo_classifyE_ok (o : YoloOutcome) :
    YOLOClassifier.classifyE o = Except.ok (YOLOClassifier.classify o) := by
  cases o with
  | exc => rfl
  | resp preds => cases preds <;> rfl

theorem gpt_classifyGoE_ok (oracle : Nat → GptOutcome) (mr : Nat) :
    ∀ fuel i, GPTClassifier.classifyGoE oracle mr i fuel =
      Except.ok (GPTClassifier.classifyGo oracle mr i fuel) := by
  intro fuel
  induction fuel with
  | zero => intro i; rfl
  | succ f ih =>
      intro i
      cases ho : oracle i with
      | parsed c =>
          by_cases hc : strMem c VALID_COLORS = true
          · simp [GPTClassifier.classifyGoE, GPTClassifier.classifyGo,
                  GPTClassifier.attemptBody, ho, hc]
          · simp [GPTClassifier.classifyGoE, GPTClassifier.classifyGo,
                  GPTClassifier.attemptBody, ho, hc, ih]
      | badJson =>
          simp [GPTClassifier.classifyGoE, GPTClassifier.classifyGo,
                GPTClassifier.attemptBody, ho, ih]
      | httpErr =>
          simp [GPTClassifier.classifyGoE, GPTClassifier.classifyGo,
                GPTClassifier.attemptBody, ho, ih]
      | exc =>
          by_cases hi : i < mr - 1
          · simp [GPTClassifier.classifyGoE, GPTClassifier.classifyGo,
                  GPTClassifier.attemptBody, ho, hi, ih]
          · simp [GPTClassifier.classifyGoE, GPTClassifier.classifyGo,
                  GPTClassifier.attemptBody, ho, hi]

/-- C6 counterexample: in the thread environment of the deployed call
path — the `run_in_executor` worker thread, which has no event loop —
the history-record timestamp raises and the exception propagates
uncaught out of the hybrid classification, even though YOLO produced a
valid label. -/
theorem C6_propagation_counterexample : ¬ claimC6Statement := by
  intro h
  obtain ⟨r, hr⟩ := h LoopEnv.noLoop true
    (YoloOutcome.resp [YoloPred.mk "PLASTIC" 1]) (fun _ => GptOutcome.exc)
  have he : HybridClassifier.classifyE LoopEnv.noLoop true
      (YoloOutcome.resp [YoloPred.mk "PLASTIC" 1]) (fun _ => GptOutcome.exc) =
      Except.error () := rfl
  rw [he] at hr
  exact Except.noConfusion hr

/-- C6 amended: every exception of an external classification call is
caught inside the classifier that issued it and treated as a failed
attempt — the YOLO and GPT exception-level semantics always complete
normally, for every external behaviour — and the hybrid pipeline
completes normally with the pure result whenever an event loop is
available to its thread.  But when the thread has no event loop (the
`run_in_executor` worker of the deployed path), the history-record
timestamp raises on every completion path and the exception propagates
out of `HybridClassifier.classify` to its caller; it is contained only
at the hardware-loop level. -/
theorem C6_exception_containment :
    (∀ o : YoloOutcome,
       YOLOClassifier.classifyE o = Except.ok (YOLOClassifier.classify o)) ∧
    (∀ oracle : Nat → GptOutcome,
       GPTClassifier.classifyE oracle = Except.ok (GPTClassifier.classify oracle)) ∧
    (∀ (running : Bool) (lt wt : ℚ) (ufb : Bool) (y : YoloOutcome)
       (g : Nat → GptOutcome),
       HybridClassifier.classifyE (LoopEnv.loop running lt wt) ufb y g =
         Except.ok (HybridClassifier.classify ufb y g)) ∧
    (∀ (ufb : Bool) (y : YoloOutcome) (g : Nat → GptOutcome),
       HybridClassifier.classifyE LoopEnv.noLoop ufb y g = Except.error ()) := by
  refine ⟨yolo_classifyE_ok, ?_, ?_, ?_⟩
  · intro oracle
    exact gpt_classifyGoE_ok oracle 3 3 0
  · intro running lt wt ufb y g
    unfold HybridClassifier.classifyE HybridClassifier.classify
    rw [yolo_classifyE_ok]
    simp only [Bind.bind, Except.bind, historyTimestampE]
    by_cases h1 :
        (!(YOLOClassifier.classify y = "") &&
          strMem (YOLOClassifier.classify y) VALID_COLORS) = true
    · simp [h1]
    · simp only [h1]
      cases ufb with
      | false => simp
      | true =>
          simp only [GPTClassifier.classifyE, gpt_classifyGoE_ok g 3 3 0,
                     GPTClassifier.classify, Bind.bind, Except.bind]
          by_cases h2 :
              (!((GPTClassifier.classifyGo g 3 0 3).1 = "") &&
                strMem (GPTClassifier.classifyGo g 3 0 3).1 VALID_COLORS) = true
          · simp [h2]
          · simp [h2]
  · intro ufb y g
    unfold HybridClassifier.classifyE
    rw [yolo_classifyE_ok]
    simp only [Bind.bind, Except.bind, historyTimestampE]
    by_cases h1 :
        (!(YOLOClassifier.classify y = "") &&
          strMem (YOLOClassifier.classify y) VALID_COLORS) = true
    · simp [h1]
    · simp only [h1]
      cases ufb with
      | false => simp
      | true =>
          simp only [GPTClassifier.classifyE, gpt_classifyGoE_ok g 3 3 0,
                     Bind.bind, Except.bind]
          by_cases h2 :
              (!((GPTClassifier.classifyGo g 3 0 3).1 = "") &&
                strMem (GPTClassifier.classifyGo g 3 0 3).1 VALID_COLORS) = true
          · simp [h2]
          · simp [h2]

/-! ### Sensor-status lemmas -/

theorem sensorOk_update (st : Store) (k : String) (v : PyVal)
    (hk : k ≠ "sensor_status") :
    sensorOk (LocalState.update st k v) = sensorOk st := by
  unfold sensorOk
  rw [dictGet_update_ne st k v "sensor_status" (Ne.symm hk) (by decide) (by decide)]

theorem sensorFlag_update (st : Store) (k : String) (v : PyVal) (s : String)
    (hk : k ≠ "sensor_status") :
    sensorFlag (LocalState.update st k v) s = sensorFlag st s := by
  unfold sensorFlag
  rw [dictGet_update_ne st k v "sensor_status" (Ne.symm hk) (by decide) (by decide)]

theorem handleBin_store_cases (hw : Bool) (st : Store) (bin : String) :
    (HardwareLoop.handleBinDetection hw st bin).1 = st ∨
    (HardwareLoop.handleBinDetection hw st bin).1 =
      LocalState.update (LocalState.update st "reward" (pyBool true))
        "phase" (pyStr "reward") ∨
    (HardwareLoop.handleBinDetection hw st bin).1 =
      LocalState.update st "phase" (pyStr "incorrect") := by
  unfold HardwareLoop.handleBinDetection
  by_cases hin :
      pvInStrList (LocalState.get st "phase" pyNone) HardwareLoop.trash_phases = true
  · simp only [hin, if_true]
    by_cases heq :
        (match LocalState.get st "phase" pyNone with
         | pyStr s => dictGet HardwareLoop.phase_to_bin s
         | _ => none) = some bin
    · right; left
      simp [heq]
    · right; right
      simp [heq]
  · left
    simp [hin]

theorem handleBin_sensor_preserved (hw : Bool) (st : Store) (bin : String) :
    sensorOk (HardwareLoop.handleBinDetection hw st bin).1 = sensorOk st ∧
    (∀ s, sensorFlag (HardwareLoop.handleBinDetection hw st bin).1 s = sensorFlag st s) := by
  rcases handleBin_store_cases hw st bin with h | h | h <;> rw [h]
  · exact ⟨rfl, fun s => rfl⟩
  · constructor
    · rw [sensorOk_update _ _ _ (by decide), sensorOk_update _ _ _ (by decide)]
    · intro s
      rw [sensorFlag_update _ _ _ _ (by decide), sensorFlag_update _ _ _ _ (by decide)]
  · constructor
    · rw [sensorOk_update _ _ _ (by decide)]
    · intro s
      rw [sensorFlag_update _ _ _ _ (by decide)]

theorem update_sensor_status_spec (st : Store) (s : String) (b : Bool)
    (h : sensorOk st = true) :
    ∃ st2, LocalState.update_sensor_status st s b = Except.ok st2 ∧
      sensorOk st2 = true ∧
      sensorFlag st2 s = some (aBool b) ∧
      (∀ sx, sx ≠ s → sensorFlag st2 sx = sensorFlag st sx) ∧
      (∀ kx, kx ≠ "sensor_status" → dictGet st2 kx = dictGet st kx) := by
  unfold LocalState.update_sensor_status
  cases hss : dictGet st "sensor_status" with
  | none =>
      simp only [hss, Option.isNone_none, if_true, dictGet_dictSet_self]
      refine ⟨_, rfl, ?_, ?_, ?_, ?_⟩
      · unfold sensorOk
        rw [dictGet_dictSet_self]
      · unfold sensorFlag
        rw [dictGet_dictSet_self]
        exact dictGet_dictSet_self _ _ _
      · intro sx hx
        unfold sensorFlag
        rw [dictGet_dictSet_self, hss]
        show dictGet (dictSet ([] : List (String × PyAtom)) s (aBool b)) sx =
          (none : Option PyAtom)
        rw [dictGet_dictSet_ne _ _ _ _ hx]
        rfl
      · intro kx hkx
        rw [dictGet_dictSet_ne _ _ _ _ hkx, dictGet_dictSet_ne _ _ _ _ hkx]
  | some val =>
      cases val with
      | pyDict d =>
          simp only [hss, Option.isNone_some, Bool.false_eq_true, if_false]
          refine ⟨_, rfl, ?_, ?_, ?_, ?_⟩
          · unfold sensorOk
            rw [dictGet_dictSet_self]
          · unfold sensorFlag
            rw [dictGet_dictSet_self]
            exact dictGet_dictSet_self _ _ _
          · intro sx hx
            unfold sensorFlag
            rw [dictGet_dictSet_self, hss]
            show dictGet (dictSet d s (aBool b)) sx = dictGet d sx
            exact dictGet_dictSet_ne _ _ _ _ hx
          · intro kx hkx
            rw [dictGet_dictSet_ne _ _ _ _ hkx]
      | pyStr s0 =>
          exfalso
          unfold sensorOk at h
          rw [hss] at h
          exact absurd h (by simp)
      | pyBool b0 =>
          exfalso
          unfold sensorOk at h
          rw [hss] at h
          exact absurd h (by simp)
      | pyNone =>
          exfalso
          unfold sensorOk at h
          rw [hss] at h
          exact absurd h (by simp)

theorem checkBin1_spec (hw : Bool) (st : Store) (name binType : String)
    (reading : Bool) (h : sensorOk st = true) :
    ∃ out, HardwareLoop.checkBin1 hw st name binType reading = Except.ok out ∧
      sensorOk out.1 = true ∧
      sensorFlag out.1 name = some (aBool reading) ∧
      (∀ sx, sx ≠ name → sensorFlag out.1 sx = sensorFlag st sx) := by
  obtain ⟨st1, he, hok, hflag, hother, hkeys⟩ :=
    update_sensor_status_spec st name reading h
  unfold HardwareLoop.checkBin1
  cases reading with
  | false =>
      simp only [Bool.false_eq_true, if_false, he, Bind.bind, Except.bind]
      exact ⟨_, rfl, hok, hflag, hother⟩
  | true =>
      simp only [if_true, he, Bind.bind, Except.bind]
      obtain ⟨hOk2, hFlags2⟩ := handleBin_sensor_preserved hw st1 binType
      refine ⟨_, rfl, ?_, ?_, ?_⟩
      · rw [hOk2]; exact hok
      · rw [hFlags2]; exact hflag
      · intro sx hx
        rw [hFlags2]
        exact hother sx hx

theorem checkBinSensors_spec (hw : Bool) (st : Store) (b y br : Bool)
    (h : sensorOk st = true) :
    ∃ out, HardwareLoop.checkBinSensors hw st b y br = Except.ok out ∧
      sensorOk out.1 = true ∧
      sensorFlag out.1 "blue_bin" = some (aBool b) ∧
      sensorFlag out.1 "yellow_bin" = some (aBool y) ∧
      sensorFlag out.1 "brown_bin" = some (aBool br) := by
  obtain ⟨o1, e1, ok1, f1, p1⟩ := checkBin1_spec hw st "blue_bin" "blue" b h
  obtain ⟨o2, e2, ok2, f2, p2⟩ := checkBin1_spec hw o1.1 "yellow_bin" "yellow" y ok1
  obtain ⟨o3, e3, ok3, f3, p3⟩ := checkBin1_spec hw o2.1 "brown_bin" "brown" br ok2
  unfold HardwareLoop.checkBinSensors
  simp only [e1, Bind.bind, Except.bind, e2, e3]
  refine ⟨_, rfl, ok3, ?_, ?_, f3⟩
  · rw [p3 _ (by decide), p2 _ (by decide)]
    exact f1
  · rw [p3 _ (by decide)]
    exact f2

theorem handleBin_match_eq (hw : Bool) (st : Store) (t bin : String)
    (hph : LocalState.get st "phase" pyNone = pyStr t)
    (htrash : pvInStrList (pyStr t) HardwareLoop.trash_phases = true)
    (hpb : dictGet HardwareLoop.phase_to_bin t = some bin) :
    HardwareLoop.handleBinDetection hw st bin =
      (LocalState.update (LocalState.update st "reward" (pyBool true))
         "phase" (pyStr "reward"),
       [Eff.updateKey "reward" (pyBool true), Eff.updateKey "phase" (pyStr "reward")]
         ++ (if hw then [Eff.successAnimation] else []),
       [AutoReset.rewardReset]) := by
  unfold HardwareLoop.handleBinDetection
  rw [hph]
  simp [htrash, hpb]

theorem handleBin_mismatch_eq (hw : Bool) (st : Store) (t bin : String)
    (hph : LocalState.get st "phase" pyNone = pyStr t)
    (htrash : pvInStrList (pyStr t) HardwareLoop.trash_phases = true)
    (hne : dictGet HardwareLoop.phase_to_bin t ≠ some bin) :
    HardwareLoop.handleBinDetection hw st bin =
      (LocalState.update st "phase" (pyStr "incorrect"),
       [Eff.updateKey "phase" (pyStr "incorrect")]
         ++ (if hw then [Eff.errorAnimation] else []),
       [AutoReset.incorrectReset]) := by
  unfold HardwareLoop.handleBinDetection
  rw [hph]
  simp [htrash, hne]

theorem phaseWrites_append (l1 l2 : List Eff) :
    phaseWrites (l1 ++ l2) = phaseWrites l1 ++ phaseWrites l2 := by
  induction l1 with
  | nil => rfl
  | cons e rest ih =>
      cases e with
      | updateKey k v =>
          by_cases hk : k = "phase"
          · simp [phaseWrites, hk, ih]
          · simp [phaseWrites, hk, ih]
      | sensorWrite s b => simp [phaseWrites, ih]
      | led c => simp [phaseWrites, ih]
      | sleepFor q => simp [phaseWrites, ih]
      | successAnimation => simp [phaseWrites, ih]
      | errorAnimation => simp [phaseWrites, ih]

/-! ### Claim C8 -/

/-- C8: in the result phase for category blue (`blue_trash`), a blue-bin
trigger moves the phase to `reward` with the reward flag set, while
yellow- and brown-bin triggers move it to `incorrect`; outside the
result phases a bin trigger changes nothing in the store; and the
sensor flags are recorded according to the readings in every case. -/
theorem C8_bin_triggers :
    (∀ (hw : Bool) (st : Store),
       LocalState.get st "phase" pyNone = pyStr "blue_trash" →
       LocalState.get (HardwareLoop.handleBinDetection hw st "blue").1
         "phase" pyNone = pyStr "reward" ∧
       LocalState.get (HardwareLoop.handleBinDetection hw st "blue").1
         "reward" pyNone = pyBool true ∧
       (HardwareLoop.handleBinDetection hw st "blue").2.2 = [AutoReset.rewardReset] ∧
       LocalState.get (HardwareLoop.handleBinDetection hw st "yellow").1
         "phase" pyNone = pyStr "incorrect" ∧
       LocalState.get (HardwareLoop.handleBinDetection hw st "brown").1
         "phase" pyNone = pyStr "incorrect") ∧
    (∀ (hw : Bool) (st : Store) (bin : String),
       pvInStrList (LocalState.get st "phase" pyNone) HardwareLoop.trash_phases = false →
       HardwareLoop.handleBinDetection hw st bin = (st, [], [])) ∧
    (∀ (hw : Bool) (st : Store) (b y br : Bool), sensorOk st = true →
       ∃ out, HardwareLoop.checkBinSensors hw st b y br = Except.ok out ∧
         sensorFlag out.1 "blue_bin" = some (aBool b) ∧
         sensorFlag out.1 "yellow_bin" = some (aBool y) ∧
         sensorFlag out.1 "brown_bin" = some (aBool br)) := by
  refine ⟨?_, ?_, ?_⟩
  · intro hw st hph
    rw [handleBin_match_eq hw st "blue_trash" "blue" hph (by decide) (by decide),
        handleBin_mismatch_eq hw st "blue_trash" "yellow" hph (by decide) (by decide),
        handleBin_mismatch_eq hw st "blue_trash" "brown" hph (by decide) (by decide)]
    refine ⟨?_, ?_, rfl, ?_, ?_⟩
    · rw [LocalState.get, update_eq_dictSet _ "phase" (pyStr "reward") (by decide),
          dictGet_dictSet_self]
      rfl
    · rw [LocalState.get, update_eq_dictSet _ "phase" (pyStr "reward") (by decide),
          dictGet_dictSet_ne _ _ _ _ (by decide),
          update_eq_dictSet _ "reward" (pyBool true) (by decide),
          dictGet_dictSet_self]
      rfl
    · rw [LocalState.get, update_eq_dictSet _ "phase" (pyStr "incorrect") (by decide),
          dictGet_dictSet_self]
      rfl
    · rw [LocalState.get, update_eq_dictSet _ "phase" (pyStr "incorrect") (by decide),
          dictGet_dictSet_self]
      rfl
  · intro hw st bin h
    unfold HardwareLoop.handleBinDetection
    simp [h]
  · intro hw st b y br h
    obtain ⟨out, he, _, f1, f2, f3⟩ := checkBinSensors_spec hw st b y br h
    exact ⟨out, he, f1, f2, f3⟩

/-- Witness for C8 at concrete inputs: from `blue_trash`, a yellow-bin
trigger yields `incorrect` and a blue-bin trigger yields `reward`; and
a full sensor sweep on the initial store records the three flags. -/
theorem C8_bin_triggers_witness :
    LocalState.get (HardwareLoop.handleBinDetection true blueTrashStore "blue").1
      "phase" pyNone = pyStr "reward" ∧
    LocalState.get (HardwareLoop.handleBinDetection true blueTrashStore "yellow").1
      "phase" pyNone = pyStr "incorrect" ∧
    HardwareLoop.handleBinDetection true initialState "blue" = (initialState, [], []) :=
  ⟨(C8_bin_triggers.1 true blueTrashStore (by decide)).1,
   (C8_bin_triggers.1 true blueTrashStore (by decide)).2.2.2.1,
   C8_bin_triggers.2.1 true initialState "blue" (by decide)⟩

/-! ### Claim C7 -/

/-- C7: an object-sensor trigger starts the idle-to-processing
transition only while the phase is `idle` — in any other phase the loop
iteration is bit-for-bit independent of the object sensor reading (no
phase change, no processing started); and from `idle` a trigger makes
the first phase write of the iteration `"processing"`. -/
theorem C7_object_trigger_only_when_idle :
    (∀ (hw : Bool) (proc : Store → Store × List Eff × List AutoReset)
       (st : Store) (b y br : Bool),
       pvEqStr (LocalState.get st "phase" pyNone) "idle" = false →
       HardwareLoop.loopIteration hw proc st true b y br =
         HardwareLoop.loopIteration hw proc st false b y br) ∧
    (∀ (hw : Bool) (proc : Store → Store × List Eff × List AutoReset)
       (st : Store) (b y br : Bool),
       pvEqStr (LocalState.get st "phase" pyNone) "idle" = true →
       sensorOk st = true →
       (∀ s2, sensorOk s2 = true → sensorOk (proc s2).1 = true) →
       ∃ out, HardwareLoop.loopIteration hw proc st true b y br = Except.ok out ∧
         (phaseWrites out.2.1).head? = some (pyStr "processing")) := by
  constructor
  · intro hw proc st b y br h
    unfold HardwareLoop.loopIteration
    simp [h]
  · intro hw proc st b y br hidle hOk hproc
    have hOkSa : sensorOk (LocalState.update st "phase" (pyStr "processing")) = true := by
      rw [sensorOk_update _ _ _ (by decide)]
      exact hOk
    obtain ⟨sb, heb, hsbOk, _, _, _⟩ :=
      update_sensor_status_spec (LocalState.update st "phase" (pyStr "processing"))
        "object_detected" true hOkSa
    have hpOk : sensorOk (proc sb).1 = true := hproc sb hsbOk
    obtain ⟨o, heo, _, _, _, _⟩ := checkBinSensors_spec hw (proc sb).1 b y br hpOk
    unfold HardwareLoop.loopIteration
    simp only [hidle, Bool.true_and, if_true, heb, Bind.bind, Except.bind, heo]
    refine ⟨_, rfl, ?_⟩
    rw [phaseWrites_append]
    rfl

/-- Witness for C7 at concrete inputs: with the store in `processing`,
the iteration ignores the object sensor; from the initial idle store a
trigger makes `"processing"` the first phase write. -/
theorem C7_object_trigger_only_when_idle_witness :
    (HardwareLoop.loopIteration true (fun s => (s, [], [])) processingStore true
       false false false =
     HardwareLoop.loopIteration true (fun s => (s, [], [])) processingStore false
       false false false) ∧
    ∃ out, HardwareLoop.loopIteration true (fun s => (s, [], [])) initialState true
        false false false = Except.ok out ∧
      (phaseWrites out.2.1).head? = some (pyStr "processing") :=
  ⟨C7_object_trigger_only_when_idle.1 true (fun s => (s, [], [])) processingStore
     false false false (by decide),
   C7_object_trigger_only_when_idle.2 true (fun s => (s, [], [])) initialState
     false false false (by decide) (by decide) (fun s2 hs2 => hs2)⟩

/-! ### Render-loop lemmas -/

theorem renderStep_acc (d : DState) (ro : RenderOracle) :
    (renderStep d ro).acc = d.acc := by
  unfold renderStep
  repeat' split
  all_goals rfl

theorem renderStep_mode (d : DState) (ro : RenderOracle) :
    (renderStep d ro).mode = d.mode := by
  unfold renderStep
  repeat' split
  all_goals rfl

theorem tick_not_ready (d : DState) (st : Store) (ro : RenderOracle)
    (h : (d.isRunning && d.displayInit) = false) :
    SimpleMediaDisplay.tick d st ro = (d, []) := by
  unfold SimpleMediaDisplay.tick
  simp [h]

theorem tick_ready_acc (d : DState) (st : Store) (ro : RenderOracle)
    (h : (d.isRunning && d.displayInit) = true) :
    (SimpleMediaDisplay.tick d st ro).1.acc =
      phaseToState (LocalState.get st "phase" (pyStr "idle")) := by
  unfold SimpleMediaDisplay.tick
  simp only [h, Bool.not_true, Bool.false_eq_true, if_false]
  split
  · split
    · split
      · rw [renderStep_acc]
      · rw [renderStep_acc]
    · rw [renderStep_acc]
  · next hne =>
      rw [renderStep_acc]
      exact (not_ne_iff.mp hne).symm

/-- A tick whose observed display state is already current renders only:
no lighting write, no mode change. -/
theorem tick_nochange (d : DState) (st : Store) (ro : RenderOracle)
    (hg : (d.isRunning && d.displayInit) = true)
    (hacc : d.acc = phaseToState (LocalState.get st "phase" (pyStr "idle"))) :
    SimpleMediaDisplay.tick d st ro = (renderStep d ro, []) := by
  unfold SimpleMediaDisplay.tick
  simp only [hg, Bool.not_true, Bool.false_eq_true, if_false]
  split
  · next hne => exact absurd hacc.symm hne
  · rfl

/-- A tick that observes a changed display state issues exactly the LED
command sequence of the new state. -/
theorem tick_change_led (d : DState) (st : Store) (ro : RenderOracle)
    (hg : (d.isRunning && d.displayInit) = true)
    (hne : phaseToState (LocalState.get st "phase" (pyStr "idle")) ≠ d.acc) :
    (SimpleMediaDisplay.tick d st ro).2 =
      ledCmdsForState d.hw (phaseToState (LocalState.get st "phase" (pyStr "idle"))) := by
  unfold SimpleMediaDisplay.tick
  simp only [hg, Bool.not_true, Bool.false_eq_true, if_false]
  split
  · split
    · split <;> rfl
    · rfl
  · next hno => exact absurd hne hno

/-! ### Claim C9 -/

/-- C9: across two consecutive `tick` calls observing the same phase,
the second call issues no lighting write and performs no render-mode
switch; and at a tick that first observes a changed phase the lighting
command sequence for the new phase is issued exactly once. -/
theorem C9_tick_lighting :
    (∀ (d : DState) (st : Store) (ro1 ro2 : RenderOracle),
       (SimpleMediaDisplay.tick (SimpleMediaDisplay.tick d st ro1).1 st ro2).2 = [] ∧
       (SimpleMediaDisplay.tick (SimpleMediaDisplay.tick d st ro1).1 st ro2).1.mode =
         (SimpleMediaDisplay.tick d st ro1).1.mode ∧
       (SimpleMediaDisplay.tick (SimpleMediaDisplay.tick d st ro1).1 st ro2).1.acc =
         (SimpleMediaDisplay.tick d st ro1).1.acc) ∧
    (∀ (d : DState) (st : Store) (ro : RenderOracle),
       d.isRunning = true → d.displayInit = true →
       phaseToState (LocalState.get st "phase" (pyStr "idle")) ≠ d.acc →
       (SimpleMediaDisplay.tick d st ro).2 =
         ledCmdsForState d.hw (phaseToState (LocalState.get st "phase" (pyStr "idle")))) := by
  constructor
  · intro d st ro1 ro2
    by_cases hg : (d.isRunning && d.displayInit) = true
    · by_cases hg2 : ((SimpleMediaDisplay.tick d st ro1).1.isRunning &&
          (SimpleMediaDisplay.tick d st ro1).1.displayInit) = true
      · have hacc := tick_ready_acc d st ro1 hg
        rw [tick_nochange (SimpleMediaDisplay.tick d st ro1).1 st ro2 hg2 hacc]
        exact ⟨rfl, renderStep_mode _ _, renderStep_acc _ _⟩
      · rw [tick_not_ready _ st ro2 (by
          cases hb : ((SimpleMediaDisplay.tick d st ro1).1.isRunning &&
              (SimpleMediaDisplay.tick d st ro1).1.displayInit) with
          | false => rfl
          | true => exact absurd hb hg2)]
        exact ⟨rfl, rfl, rfl⟩
    · have hg0 : (d.isRunning && d.displayInit) = false := by
        cases hb : (d.isRunning && d.displayInit) with
        | false => rfl
        | true => exact absurd hb hg
      rw [tick_not_ready d st ro1 hg0]
      rw [tick_not_ready d st ro2 hg0]
      exact ⟨rfl, rfl, rfl⟩
  · intro d st ro hrun hinit hne
    exact tick_change_led d st ro (by rw [hrun, hinit]; rfl) hne

/-- Witness for C9 at a concrete input: an idle-phase change tick from a
different state writes the idle lighting sequence once, and a repeated
tick on the unchanged phase writes nothing and keeps the render mode. -/
theorem C9_tick_lighting_witness :
    (SimpleMediaDisplay.tick
       (SimpleMediaDisplay.tick
         (DState.mk 1 RenderMode.image true false true true true true) initialState
         (RenderOracle.mk true false true true true true true true)).1 initialState
       (RenderOracle.mk true false true true true true true true)).2 = [] ∧
    (SimpleMediaDisplay.tick
       (DState.mk 1 RenderMode.image true false true true true true) initialState
       (RenderOracle.mk true false true true true true true true)).2 =
      ledCmdsForState true
        (phaseToState (LocalState.get initialState "phase" (pyStr "idle"))) :=
  ⟨(C9_tick_lighting.1 (DState.mk 1 RenderMode.image true false true true true true)
      initialState (RenderOracle.mk true false true true true true true true)
      (RenderOracle.mk true false true true true true true true)).1,
   C9_tick_lighting.2 (DState.mk 1 RenderMode.image true false true true true true)
     initialState (RenderOracle.mk true false true true true true true true)
     rfl rfl (by decide)⟩

end ITrash
